import Mathlib

/-!
Verification model of the Icing search-engine coordinator
(`icing/icing-search-engine.h` and its behaviour as exercised by
`icing-search-engine_test.cc`).

The repository ships only the coordinator's test file and two headers; the
coordinator implementation itself is absent.  Every operation below is
therefore modelled from the natural-language specification (`spec.md`),
with the shipped tests used to pin down concrete expected behaviour.
Machine integers are modelled as `Nat`/`Int`; statuses as an enumeration;
the clock is an explicit `now` field injected at engine construction
(the tests use a `FakeClock` the same way).
-/

namespace Icing

/-- Status codes surfaced by every operation (spec section 6). -/
inductive StatusCode where
  | ok
  | invalidArgument
  | notFound
  | failedPrecondition
  | alreadyExists
  | outOfSpace
  | internal
  | aborted
  | warningDataLoss
  deriving DecidableEq, Repr

/-- Property cardinality (spec section 3, Schema). -/
inductive Cardinality where
  | required
  | optional
  | repeated
  deriving DecidableEq, Repr

/-- Property data kinds (spec section 3, Schema). -/
inductive DataKind where
  | string
  | int64
  | double
  | boolean
  | bytes
  | document
  deriving DecidableEq, Repr

/-- A property configuration: name, kind, cardinality and, for strings,
whether the property is indexed (term-match mode other than `none`). -/
structure PropertyConfig where
  name : String
  dataKind : DataKind
  cardinality : Cardinality
  indexed : Bool
  deriving DecidableEq, Repr

/-- A schema type configuration: unique name plus property list. -/
structure SchemaType where
  name : String
  properties : List PropertyConfig
  deriving DecidableEq, Repr

/-- A schema is a set of type configurations (spec section 3). -/
abbrev Schema := List SchemaType

/-- A document: (namespace, uri) key, schema type, string property values,
creation timestamp (ms), ttl (ms, 0 = never expire), score. -/
structure Document where
  ns : String
  uri : String
  schemaType : String
  properties : List (String × String)
  creationTs : Nat
  ttl : Nat
  score : Nat
  deriving DecidableEq, Repr

/-- An entry of the append-only document log: the document plus its
deletion tombstone flag.  The entry's position in the log is its
DocumentId (spec section 3, DocumentId). -/
structure DocEntry where
  doc : Document
  deleted : Bool
  deriving DecidableEq, Repr

/-- A term-index hit: (term, DocumentId, property/section name)
(spec section 3, Hit).  Terms are stored truncated to
`max_token_length` characters. -/
structure Hit where
  term : List Char
  docId : Nat
  prop : String
  deriving DecidableEq, Repr

/-- Per-document usage record: three counters and three last-used
timestamps, one per usage type (spec section 3, Usage record). -/
structure UsageScores where
  count1 : Nat := 0
  count2 : Nat := 0
  count3 : Nat := 0
  lastUsed1 : Nat := 0
  lastUsed2 : Nat := 0
  lastUsed3 : Nat := 0
  deriving DecidableEq, Repr

/-- The three usage types of a usage report. -/
inductive UsageType where
  | type1
  | type2
  | type3
  deriving DecidableEq, Repr

/-- The tail of an unfetched result stream cached behind a page token
(spec section 4.5; `icing/result/page-result-state.h`). -/
structure PageState where
  remaining : List Document
  numPerPage : Nat
  deriving DecidableEq, Repr

/- ## Plain tokenizer -/

/-- Maximal runs of characters satisfying `p`; used both to break a query
into whitespace-separated segments and to break text into tokens.  The
plain tokenizer keeps alphanumeric runs, so hyphens split tokens
(spec section 6: `bar-baz` tokenises to `bar`, `baz`). -/
def splitRuns (p : Char → Bool) (cs : List Char) : List (List Char) :=
  let st := cs.foldr
    (fun c (st : List (List Char) × List Char) =>
      if p c then (st.1, c :: st.2)
      else (if st.2.isEmpty then st.1 else st.2 :: st.1, []))
    ([], [])
  if st.2.isEmpty then st.1 else st.2 :: st.1

/-- Tokens of a string property value under the plain tokenizer. -/
def plainTokens (v : String) : List (List Char) :=
  splitRuns Char.isAlphanum v.data

/-- Whether `pre` is a (character-list) prefix of `s`. -/
def listStartsWith : List Char → List Char → Bool
  | [], _ => true
  | _ :: _, [] => false
  | a :: as, b :: bs => a == b && listStartsWith as bs

/- ## Engine state -/

/-- Modelled from the spec: the coordinator's whole observable state —
engine options (`max_token_length`), the injected clock, the active
schema, the document log with tombstones, the term index, usage records
keyed by DocumentId, the result cache, and the next page token to hand
out.  The spec draws page tokens as random non-zero 64-bit values; the
model allocates them from a counter starting at 1, which preserves
everything the spec relies on (non-zero, fresh). -/
structure Store where
  maxTokenLen : Nat
  now : Nat
  schema : Option Schema
  docs : List DocEntry
  hits : List Hit
  usage : List (Nat × UsageScores)
  pages : List (Nat × PageState)
  nextToken : Nat
  deriving DecidableEq, Repr

/-- The empty working state right after a fresh `Initialize`. -/
def emptyStore (maxTokenLen now : Nat) : Store :=
  { maxTokenLen := maxTokenLen, now := now, schema := none, docs := [],
    hits := [], usage := [], pages := [], nextToken := 1 }

/-- Modelled from the spec: the coordinator lifecycle state machine
(spec section 4.6).  `uninitialized` carries the engine options and the
clock the instance was constructed with; `quarantined` keeps the members
around (as the implementation does) but refuses service until `Reset`. -/
inductive Engine where
  | uninitialized (maxTokenLen now : Nat)
  | ready (s : Store)
  | quarantined (s : Store)
  deriving DecidableEq, Repr

/- ## Document-store helpers -/

/-- Whether the log entry at index `i` carries key (`ns`, `uri`). -/
def keyAt (docs : List DocEntry) (ns uri : String) (i : Nat) : Bool :=
  match docs[i]? with
  | some e => decide (e.doc.ns = ns ∧ e.doc.uri = uri)
  | none => false

/-- The current DocumentId for key (`ns`, `uri`): the last log entry with
that key (later appends supersede earlier ones). -/
def currentIdx (docs : List DocEntry) (ns uri : String) : Option Nat :=
  ((List.range docs.length).filter (keyAt docs ns uri)).getLast?

/-- Whether a document is expired at `now`: `creation_ts + ttl ≤ now`
with `ttl = 0` meaning never expire (spec section 4.2, liveness rule). -/
def expiredAt (now : Nat) (d : Document) : Bool :=
  decide (d.ttl ≠ 0 ∧ d.creationTs + d.ttl ≤ now)

/-- Modelled from the spec: a document log entry is *live* iff it is the
current entry for its key, is not tombstoned, and is not expired
(spec section 4.2, liveness rule). -/
def isLive (s : Store) (i : Nat) : Bool :=
  match s.docs[i]? with
  | some e =>
      !e.deleted && !expiredAt s.now e.doc &&
      (s.docs.drop (i + 1)).all
        (fun e' => !decide (e'.doc.ns = e.doc.ns ∧ e'.doc.uri = e.doc.uri))
  | none => false

/-- Whether a document satisfies a schema: its type resolves, every
`required` property is present, and every property it carries is
declared by the type (spec section 3, Document invariants). -/
def docValid (σ : Schema) (d : Document) : Bool :=
  match σ.find? (fun t => t.name == d.schemaType) with
  | none => false
  | some t =>
      t.properties.all (fun p =>
        !decide (p.cardinality = .required) ||
        d.properties.any (fun pr => pr.1 == p.name)) &&
      d.properties.all (fun pr => t.properties.any (fun p => p.name == pr.1))

/-- The hits contributed to the term index by document `d` stored at
DocumentId `i`: every indexed string property is tokenized and each
token is truncated to `max_token_length` characters before insertion
(spec sections 4.3 and 4.6, Put). -/
def indexDoc (σ : Option Schema) (maxTokenLen i : Nat) (d : Document) : List Hit :=
  match σ with
  | none => []
  | some sch =>
    match sch.find? (fun t => t.name == d.schemaType) with
    | none => []
    | some t =>
        (d.properties.map (fun pr =>
          match t.properties.find? (fun p => p.name == pr.1) with
          | some pc =>
              if pc.indexed then
                (plainTokens pr.2).map
                  (fun tk => { term := tk.take maxTokenLen, docId := i, prop := pr.1 })
              else []
          | none => [])).flatten

/- ## Schema compatibility -/

/-- Structural schema validation: unique, non-empty type names and unique,
non-empty property names within each type (spec section 4.1). -/
def uniqueNames : List String → Bool
  | [] => true
  | x :: xs => !xs.contains x && uniqueNames xs

/-- Whether a proposed schema passes `SetSchema` validation
(spec section 4.1, Validation). -/
def validateSchema (σ : Schema) : Bool :=
  uniqueNames (σ.map (·.name)) &&
  σ.all (fun t =>
    !(t.name == "") &&
    uniqueNames (t.properties.map (·.name)) &&
    t.properties.all (fun p => !(p.name == "")))

/-- Whether any live document has schema type `tname`. -/
def typeHasLiveDoc (s : Store) (tname : String) : Bool :=
  (List.range s.docs.length).any (fun i =>
    match s.docs[i]? with
    | some e => isLive s i && e.doc.schemaType == tname
    | none => false)

/-- Whether some live document of type `tname` lacks property `pname`. -/
def liveDocLacking (s : Store) (tname pname : String) : Bool :=
  (List.range s.docs.length).any (fun i =>
    match s.docs[i]? with
    | some e =>
        isLive s i && e.doc.schemaType == tname &&
        !(e.doc.properties.any (fun pr => pr.1 == pname))
    | none => false)

/-- Modelled from the spec: whether replacing old type `t` by new type
`t'` is backward-incompatible — it removes or retypes an existing
property, or tightens a property to `required` where existing documents
lack it (spec section 4.1, Compatibility). -/
def incompatibleType (s : Store) (t t' : SchemaType) : Bool :=
  t.properties.any (fun p =>
    match t'.properties.find? (fun p' => p'.name == p.name) with
    | none => true
    | some p' => !decide (p'.dataKind = p.dataKind)) ||
  t'.properties.any (fun p' =>
    decide (p'.cardinality = .required) &&
    (match t.properties.find? (fun p => p.name == p'.name) with
     | some p => !decide (p.cardinality = .required)
     | none => true) &&
    liveDocLacking s t.name p'.name)

/-- Modelled from the spec: the compatibility delta of a proposed schema
against the active schema and documents — (deleted type names that have
documents, backward-incompatible type names) (spec section 4.1). -/
def schemaDelta (s : Store) (σ' : Schema) : List String × List String :=
  match s.schema with
  | none => ([], [])
  | some σ =>
      ((σ.filter (fun t =>
          !(σ'.any (fun t' => t'.name == t.name)) && typeHasLiveDoc s t.name)).map (·.name),
       (σ.filter (fun t =>
          match σ'.find? (fun t' => t'.name == t.name) with
          | none => false
          | some t' => incompatibleType s t t')).map (·.name))

/- ## Operation results -/

/-- Result of `SetSchema` (spec section 6). -/
structure SetSchemaResult where
  status : StatusCode
  deletedTypes : List String
  incompatibleTypes : List String
  deriving DecidableEq, Repr

/-- Result of `Get` (spec section 6). -/
structure GetResult where
  status : StatusCode
  doc : Option Document
  deriving DecidableEq, Repr

/-- Result of `Search` and `GetNextPage`; a `nextPageToken` of 0 means no
token was returned (spec section 6; `kInvalidNextPageToken`). -/
structure SearchResult where
  status : StatusCode
  results : List Document
  nextPageToken : Nat
  deriving DecidableEq, Repr

/- ## Engine operations -/

/-- Modelled from the spec: `Initialize` (spec section 4.6).  A fresh
engine opens to the empty working state; an already-`READY` engine
reports OK without touching any state (the test
`InitializingAgainSavesNonPersistedData`); a quarantined engine keeps
refusing service until `Reset`. -/
def Engine.initializeEngine : Engine → StatusCode × Engine
  | .uninitialized m n => (.ok, .ready (emptyStore m n))
  | .ready s => (.ok, .ready s)
  | .quarantined s => (.failedPrecondition, .quarantined s)

/-- Modelled from the spec: `SetSchema` (spec sections 4.1 and 4.6).
Validation failures return `INVALID_ARGUMENT`.  A backward-incompatible
change without `ignore_errors_and_delete_documents` fails with
`FAILED_PRECONDITION`, reporting the offending type names, and mutates
nothing.  An accepted schema is installed and every document that no
longer validates (deleted type, missing newly-required property) is
tombstoned. -/
def Engine.setSchema (σ' : Schema) (force : Bool) : Engine → SetSchemaResult × Engine
  | .ready s =>
    if validateSchema σ' then
      let dl := schemaDelta s σ'
      if dl = ([], []) ∨ force = true then
        ({ status := .ok, deletedTypes := dl.1, incompatibleTypes := dl.2 },
         .ready { s with
            schema := some σ',
            docs := s.docs.map (fun en =>
              if docValid σ' en.doc then en else { en with deleted := true }) })
      else
        ({ status := .failedPrecondition, deletedTypes := dl.1,
           incompatibleTypes := dl.2 }, .ready s)
    else
      ({ status := .invalidArgument, deletedTypes := [], incompatibleTypes := [] },
       .ready s)
  | e => ({ status := .failedPrecondition, deletedTypes := [], incompatibleTypes := [] }, e)

/-- Modelled from the spec: `Put` (spec sections 4.2 and 4.6).  Requires
a set schema (`FAILED_PRECONDITION`), non-empty key fields
(`INVALID_ARGUMENT`), a resolvable type (`NOT_FOUND`) and a valid
document; appends to the log (superseding any prior document with the
same key) and adds the document's truncated tokens to the index. -/
def Engine.put (d : Document) : Engine → StatusCode × Engine
  | .ready s =>
    match s.schema with
    | none => (.failedPrecondition, .ready s)
    | some sch =>
      if d.ns = "" ∨ d.uri = "" then (.invalidArgument, .ready s)
      else
        match sch.find? (fun t => t.name == d.schemaType) with
        | none => (.notFound, .ready s)
        | some _ =>
          if docValid sch d then
            (.ok, .ready { s with
              docs := (s.docs.map (fun en =>
                  if decide (en.doc.ns = d.ns ∧ en.doc.uri = d.uri) then
                    { en with deleted := true }
                  else en)) ++ [{ doc := d, deleted := false }],
              hits := s.hits ++ indexDoc s.schema s.maxTokenLen s.docs.length d })
          else (.invalidArgument, .ready s)
  | e => (.failedPrecondition, e)

/-- Modelled from the spec: `Get(namespace, uri)` — the current live
document for the key, else `NOT_FOUND` (spec sections 4.2 and 6). -/
def Engine.get (ns uri : String) : Engine → GetResult
  | .ready s =>
    match currentIdx s.docs ns uri with
    | some i =>
      match s.docs[i]? with
      | some e =>
          if e.deleted then { status := .notFound, doc := none }
          else if expiredAt s.now e.doc then { status := .notFound, doc := none }
          else { status := .ok, doc := some e.doc }
      | none => { status := .notFound, doc := none }
    | none => { status := .notFound, doc := none }
  | _ => { status := .failedPrecondition, doc := none }

/- ## Usage reports and scoring -/

/-- Usage record lookup by DocumentId. -/
def lookupUsage (u : List (Nat × UsageScores)) (i : Nat) : Option UsageScores :=
  (u.find? (fun p => p.1 == i)).map (·.2)

/-- Apply one usage report to a usage record: the counter for the usage
type increments and the last-used timestamp only moves forward — an
older timestamp never overwrites a newer one (spec sections 3 and 4.2). -/
def bumpUsage (ut : UsageType) (ts : Nat) (u : UsageScores) : UsageScores :=
  match ut with
  | .type1 => { u with count1 := u.count1 + 1, lastUsed1 := max u.lastUsed1 ts }
  | .type2 => { u with count2 := u.count2 + 1, lastUsed2 := max u.lastUsed2 ts }
  | .type3 => { u with count3 := u.count3 + 1, lastUsed3 := max u.lastUsed3 ts }

/-- The usage counter of a record for a usage type. -/
def usageCountOf (ut : UsageType) (u : UsageScores) : Nat :=
  match ut with
  | .type1 => u.count1
  | .type2 => u.count2
  | .type3 => u.count3

/-- The last-used timestamp of a record for a usage type. -/
def usageLastUsedOf (ut : UsageType) (u : UsageScores) : Nat :=
  match ut with
  | .type1 => u.lastUsed1
  | .type2 => u.lastUsed2
  | .type3 => u.lastUsed3

/-- Store-level effect of `ReportUsage`: no effect when the key resolves
to no live document. -/
def reportUsageS (ns uri : String) (ts : Nat) (ut : UsageType) (s : Store) : Store :=
  match currentIdx s.docs ns uri with
  | some i =>
      if isLive s i then
        { s with usage :=
            (i, bumpUsage ut ts ((lookupUsage s.usage i).getD {})) :: s.usage }
      else s
  | none => s

/-- Modelled from the spec: `ReportUsage` (spec section 4.2) — looks the
key up, `NOT_FOUND` when it resolves to no live document, else updates
the document's usage record. -/
def Engine.reportUsage (ns uri : String) (ts : Nat) (ut : UsageType) :
    Engine → StatusCode × Engine
  | .ready s =>
    match currentIdx s.docs ns uri with
    | some i =>
        if isLive s i then (.ok, .ready (reportUsageS ns uri ts ut s))
        else (.notFound, .ready s)
    | none => (.notFound, .ready s)
  | e => (.failedPrecondition, e)

/-- Ranking strategies (spec section 4.4). -/
inductive RankingStrategy where
  | noRanking
  | documentScore
  | creationTimestamp
  | usageCount (ut : UsageType)
  | usageLastUsedTimestamp (ut : UsageType)
  deriving DecidableEq, Repr

/-- Result order (spec section 4.4). -/
inductive ResultOrder where
  | desc
  | asc
  deriving DecidableEq, Repr

structure ScoringSpec where
  rankBy : RankingStrategy
  order : ResultOrder := .desc
  deriving DecidableEq, Repr

/-- Term match type of a query (spec section 6, Search spec). -/
inductive TermMatch where
  | exactOnly
  | prefixMatch
  deriving DecidableEq, Repr

structure SearchSpec where
  query : String
  termMatch : TermMatch
  namespaceFilters : List String := []
  schemaTypeFilters : List String := []
  deriving DecidableEq, Repr

/-- `num_per_page` is a signed 32-bit field; negative values are invalid
(spec section 6, Result spec). -/
structure ResultSpec where
  numPerPage : Int := 10
  deriving DecidableEq, Repr

/-- Modelled from the spec: the score of a document under a ranking
strategy; documents with no usage record score 0 for the usage
strategies (spec section 4.4). -/
def scoreOf (s : Store) (rank : RankingStrategy) (i : Nat) : Nat :=
  match s.docs[i]? with
  | none => 0
  | some e =>
    match rank with
    | .noRanking => 0
    | .documentScore => e.doc.score
    | .creationTimestamp => e.doc.creationTs
    | .usageCount ut => ((lookupUsage s.usage i).map (usageCountOf ut)).getD 0
    | .usageLastUsedTimestamp ut =>
        ((lookupUsage s.usage i).map (usageLastUsedOf ut)).getD 0

/- ## Query parsing and search -/

/-- Split a query segment at its first `:` into a property restrict and
the remaining term text (spec section 6, query grammar `prop:term`). -/
def splitColon (acc : List Char) : List Char → Option (List Char × List Char)
  | [] => none
  | c :: cs => if c == ':' then some (acc.reverse, cs) else splitColon (c :: acc) cs

/-- One whitespace-separated query segment parsed to (optional property
restrict, tokens): the term text is tokenized like document content and
every token is truncated to `max_token_length` (spec sections 4.3 and 6). -/
def parseSegment (maxTokenLen : Nat) (seg : List Char) :
    List (Option String × List Char) :=
  match splitColon [] seg with
  | some (r, rest) =>
      (splitRuns Char.isAlphanum rest).map
        (fun t => (some (String.mk r), t.take maxTokenLen))
  | none =>
      (splitRuns Char.isAlphanum seg).map (fun t => (none, t.take maxTokenLen))

/-- The AND-clauses of a query: whitespace-separated segments, each
yielding one clause per token (spec section 6, query grammar). -/
def queryClauses (maxTokenLen : Nat) (q : String) : List (Option String × List Char) :=
  ((splitRuns (fun c => !c.isWhitespace) q.data).map (parseSegment maxTokenLen)).flatten

/-- Whether a (truncated) query token matches a (truncated) indexed term
under the requested term-match type (spec sections 4.3 and 6). -/
def termMatches (tm : TermMatch) (qt ht : List Char) : Bool :=
  match tm with
  | .exactOnly => qt == ht
  | .prefixMatch => listStartsWith qt ht

/-- Whether document `i` satisfies one query clause: some hit of `i`
matches the token, honouring the property restrict. -/
def matchesClause (s : Store) (tm : TermMatch) (i : Nat)
    (cl : Option String × List Char) : Bool :=
  s.hits.any (fun h =>
    h.docId == i &&
    (match cl.1 with
     | none => true
     | some p => h.prop == p) &&
    termMatches tm cl.2 h.term)

/-- Whether document `i` passes the namespace / schema-type filters
(spec section 6, Search spec). -/
def passesFilters (s : Store) (sp : SearchSpec) (i : Nat) : Bool :=
  match s.docs[i]? with
  | none => false
  | some e =>
      (sp.namespaceFilters.isEmpty || sp.namespaceFilters.contains e.doc.ns) &&
      (sp.schemaTypeFilters.isEmpty || sp.schemaTypeFilters.contains e.doc.schemaType)

/-- The candidate DocumentIds of a search: every clause matches, the
document is live (tombstoned and expired hits are filtered out at query
time), and the filters pass (spec section 4.6, Search). -/
def candidateIds (s : Store) (sp : SearchSpec) : List Nat :=
  (List.range s.docs.length).filter (fun i =>
    (queryClauses s.maxTokenLen sp.query).all (matchesClause s sp.termMatch i) &&
    isLive s i && passesFilters s sp i)

/-- Whether id `a` ranks strictly before id `b`: higher score first, ties
broken by DocumentId descending (spec section 4.4). -/
def rankBefore (s : Store) (rank : RankingStrategy) (a b : Nat) : Bool :=
  Nat.blt (scoreOf s rank b) (scoreOf s rank a) ||
  (scoreOf s rank a == scoreOf s rank b && Nat.blt b a)

/-- Insert into a list sorted by the strict precedence `before`. -/
def insertRanked (before : Nat → Nat → Bool) (x : Nat) : List Nat → List Nat
  | [] => [x]
  | y :: ys => if before x y then x :: y :: ys else y :: insertRanked before x ys

/-- Insertion sort by the strict precedence `before`. -/
def sortRanked (before : Nat → Nat → Bool) : List Nat → List Nat
  | [] => []
  | x :: xs => insertRanked before x (sortRanked before xs)

/-- The ranked DocumentIds of a search; `ASC` flips the order. -/
def rankedIds (s : Store) (sp : SearchSpec) (sc : ScoringSpec) : List Nat :=
  let base := sortRanked (rankBefore s sc.rankBy) (candidateIds s sp)
  match sc.order with
  | .desc => base
  | .asc => base.reverse

/-- The full scored result stream of a search, as documents. -/
def searchDocs (s : Store) (sp : SearchSpec) (sc : ScoringSpec) : List Document :=
  (rankedIds s sp sc).filterMap (fun i => (s.docs[i]?).map (·.doc))

/- ## Result cache -/

/-- Look a page token up in the result cache. -/
def lookupPage (ps : List (Nat × PageState)) (tok : Nat) : Option PageState :=
  (ps.find? (fun p => p.1 == tok)).map (·.2)

/-- Drop a page token from the result cache. -/
def removePage (ps : List (Nat × PageState)) (tok : Nat) : List (Nat × PageState) :=
  ps.filter (fun p => p.1 != tok)

/-- Modelled from the spec: `Search` (spec sections 4.5, 4.6 and 6).
`num_per_page < 0` is `INVALID_ARGUMENT`; otherwise the first
`num_per_page` ranked live matches are returned and, when more remain,
the tail is cached behind a fresh non-zero page token. -/
def Engine.search (sp : SearchSpec) (sc : ScoringSpec) (rs : ResultSpec) :
    Engine → SearchResult × Engine
  | .ready s =>
    if rs.numPerPage < 0 then
      ({ status := .invalidArgument, results := [], nextPageToken := 0 }, .ready s)
    else
      let all := searchDocs s sp sc
      let n := rs.numPerPage.toNat
      if (all.drop n).isEmpty then
        ({ status := .ok, results := all.take n, nextPageToken := 0 }, .ready s)
      else
        ({ status := .ok, results := all.take n, nextPageToken := s.nextToken },
         .ready { s with
            pages := (s.nextToken, { remaining := all.drop n, numPerPage := n }) :: s.pages,
            nextToken := s.nextToken + 1 })
  | e => ({ status := .failedPrecondition, results := [], nextPageToken := 0 }, e)

/-- Modelled from the spec: `GetNextPage` (spec section 4.5).  An unknown
token returns an empty OK page, not an error; a known token advances the
cursor, dropping the token (and returning token 0) once the stream is
exhausted. -/
def Engine.getNextPage (tok : Nat) : Engine → SearchResult × Engine
  | .ready s =>
    match lookupPage s.pages tok with
    | none => ({ status := .ok, results := [], nextPageToken := 0 }, .ready s)
    | some ps =>
      if (ps.remaining.drop ps.numPerPage).isEmpty then
        ({ status := .ok, results := ps.remaining.take ps.numPerPage, nextPageToken := 0 },
         .ready { s with pages := removePage s.pages tok })
      else
        ({ status := .ok, results := ps.remaining.take ps.numPerPage, nextPageToken := tok },
         .ready { s with pages :=
            (tok, { remaining := ps.remaining.drop ps.numPerPage,
                    numPerPage := ps.numPerPage }) :: removePage s.pages tok })
  | e => ({ status := .failedPrecondition, results := [], nextPageToken := 0 }, e)

/-- Modelled from the spec: `InvalidateNextPageToken` purges the token
from the result cache (spec section 4.5). -/
def Engine.invalidateNextPageToken (tok : Nat) : Engine → Engine
  | .ready s => .ready { s with pages := removePage s.pages tok }
  | e => e

/-- Modelled from the spec: the successful `Optimize` path (spec
section 4.6) — the document log is rewritten without tombstones and
expired entries (compacting DocumentIds), the index is rebuilt against
the new ids, usage records follow their documents, and every page token
is invalidated. -/
def Engine.optimize : Engine → StatusCode × Engine
  | .ready s =>
    let liveIds := (List.range s.docs.length).filter (isLive s)
    let newDocs := liveIds.filterMap (fun i =>
      (s.docs[i]?).map (fun en => { doc := en.doc, deleted := false }))
    let newHits := (newDocs.enum.map
      (fun p => indexDoc s.schema s.maxTokenLen p.1 p.2.doc)).flatten
    let newUsage := liveIds.enum.filterMap (fun p =>
      (lookupUsage s.usage p.2).map (fun u => (p.1, u)))
    (.ok, .ready { s with docs := newDocs, hits := newHits,
                          usage := newUsage, pages := [] })
  | e => (.failedPrecondition, e)

/-- Modelled from the spec: the `Optimize` failure mode the tests force
with a failing filesystem — a destructive step fails after ground-truth
modification, so `Optimize` returns `INTERNAL` and the engine enters the
`QUARANTINED` state (spec sections 4.6 and 7). -/
def Engine.optimizeFailAfterDestructiveStep : Engine → StatusCode × Engine
  | .ready s => (.internal, .quarantined s)
  | e => (.failedPrecondition, e)

/-- Modelled from the spec: the successful `Reset` path — the base
directory is deleted and the engine reinitialises to the empty working
state (spec section 4.6). -/
def Engine.reset : Engine → StatusCode × Engine
  | .uninitialized m n => (.ok, .ready (emptyStore m n))
  | .ready s => (.ok, .ready (emptyStore s.maxTokenLen s.now))
  | .quarantined s => (.ok, .ready (emptyStore s.maxTokenLen s.now))

/- ## Concrete fixtures from the shipped tests -/

/-- `kDefaultCreationTimestampMs` of the test file. -/
def kTs : Nat := 1575492852000

/-- A freshly constructed and initialised engine (`max_token_length`
defaults to 30 in the engine options). -/
def initialEngine (maxTokenLen now : Nat) : Engine :=
  ((Engine.uninitialized maxTokenLen now).initializeEngine).2

/-- `CreateMessageSchema` of the test file: one `Message` type with a
required, prefix-indexed string property `body`. -/
def messageSchema : Schema :=
  [{ name := "Message",
     properties := [{ name := "body", dataKind := .string,
                      cardinality := .required, indexed := true }] }]

/-- `CreateMessageDocument` of the test file. -/
def msgDoc (ns uri : String) : Document :=
  { ns := ns, uri := uri, schemaType := "Message",
    properties := [("body", "message body")],
    creationTs := kTs, ttl := 0, score := 0 }

/-- Prefix search for `message`, as in the pagination tests. -/
def msgSearch : SearchSpec := { query := "message", termMatch := .prefixMatch }

/-- `GetDefaultScoringSpec` of the test file: rank by document score. -/
def defaultScoring : ScoringSpec := { rankBy := .documentScore }

/-- Engine of `SearchShouldReturnMultiplePages`: message schema plus five
message documents `uri1` … `uri5`. -/
def msgEngine5 : Engine :=
  (((((((initialEngine 30 0).setSchema messageSchema false).2.put
    (msgDoc "namespace" "uri1")).2.put (msgDoc "namespace" "uri2")).2.put
    (msgDoc "namespace" "uri3")).2.put (msgDoc "namespace" "uri4")).2.put
    (msgDoc "namespace" "uri5")).2

/-- Engine of `MaxTokenLenReturnsOkAndTruncatesTokens`:
`max_token_length` 1, message schema, one message document. -/
def truncEngine : Engine :=
  (((initialEngine 1 0).setSchema messageSchema false).2.put
    (msgDoc "namespace" "uri")).2

/-- The document of the ttl tests: creation 100, ttl 500. -/
def ttlDoc : Document :=
  { ns := "namespace", uri := "uri", schemaType := "Message",
    properties := [("body", "message body")],
    creationTs := 100, ttl := 500, score := 0 }

/-- Engine of the ttl tests, with the fake clock set to `now`. -/
def ttlEngine (now : Nat) : Engine :=
  (((initialEngine 30 now).setSchema messageSchema false).2.put ttlDoc).2

/-- Schema of the `Hyphens` test: `MyType` with an exact-indexed required
string property `foo`. -/
def myTypeSchema : Schema :=
  [{ name := "MyType",
     properties := [{ name := "foo", dataKind := .string,
                      cardinality := .required, indexed := true }] }]

/-- First document of the `Hyphens` test. -/
def hyphenDoc1 : Document :=
  { ns := "namespace", uri := "uri1", schemaType := "MyType",
    properties := [("foo", "foo bar-baz bat")], creationTs := kTs, ttl := 0, score := 0 }

/-- Second document of the `Hyphens` test. -/
def hyphenDoc2 : Document :=
  { ns := "namespace", uri := "uri2", schemaType := "MyType",
    properties := [("foo", "bar for baz bat-man")], creationTs := kTs, ttl := 0, score := 0 }

/-- Engine of the `Hyphens` test. -/
def hyphenEngine : Engine :=
  ((((initialEngine 30 0).setSchema myTypeSchema false).2.put hyphenDoc1).2.put
    hyphenDoc2).2

/-- Schema of `SetSchemaRevalidatesDocumentsAndReturnsOk` before the
change: `email` with an optional `subject`. -/
def emailOptionalSchema : Schema :=
  [{ name := "email",
     properties := [{ name := "subject", dataKind := .string,
                      cardinality := .optional, indexed := false }] }]

/-- The same schema with `subject` tightened to required. -/
def emailRequiredSchema : Schema :=
  [{ name := "email",
     properties := [{ name := "subject", dataKind := .string,
                      cardinality := .required, indexed := false }] }]

/-- The email document that lacks a subject. -/
def docWithoutSubject : Document :=
  { ns := "namespace", uri := "without_subject", schemaType := "email",
    properties := [], creationTs := kTs, ttl := 0, score := 0 }

/-- The email document that carries a subject. -/
def docWithSubject : Document :=
  { ns := "namespace", uri := "with_subject", schemaType := "email",
    properties := [("subject", "foo")], creationTs := kTs, ttl := 0, score := 0 }

/-- Engine of `SetSchemaRevalidatesDocumentsAndReturnsOk` just before the
incompatible `SetSchema`. -/
def revalidationEngine : Engine :=
  ((((initialEngine 30 0).setSchema emailOptionalSchema false).2.put
    docWithoutSubject).2.put docWithSubject).2

/-- Schema of `OptimizationFailureUninitializesIcing`: one type `type0`
with an optional, unindexed string property `prop0`. -/
def simpleSchema : Schema :=
  [{ name := "type0",
     properties := [{ name := "prop0", dataKind := .string,
                      cardinality := .optional, indexed := false }] }]

/-- Document of `OptimizationFailureUninitializesIcing`. -/
def simpleDoc : Document :=
  { ns := "namespace0", uri := "uri0", schemaType := "type0",
    properties := [("prop0", "foo")], creationTs := kTs, ttl := 0, score := 0 }

/-- Search spec of `OptimizationFailureUninitializesIcing`. -/
def fooSearch : SearchSpec := { query := "foo", termMatch := .exactOnly }

/-- Scoring spec of `OptimizationFailureUninitializesIcing`. -/
def ctScoring : ScoringSpec := { rankBy := .creationTimestamp }

/-- The member store of an engine (an uninitialised engine's members are
the empty store its options would open). -/
def storeOf : Engine → Store
  | .uninitialized m n => emptyStore m n
  | .ready s => s
  | .quarantined s => s

/-- Engine of `InitializingAgainSavesNonPersistedData` just before the
second `Initialize`: message schema plus one message document. -/
def initAgainEngine : Engine :=
  (((initialEngine 30 0).setSchema messageSchema false).2.put
    (msgDoc "namespace" "uri")).2

/-- Engine of `OlderUsageTimestampShouldNotOverrideNewerOnes` just before
the three usage reports: message schema plus documents `uri/1`, `uri/2`. -/
def usageEngine : Engine :=
  ((((initialEngine 30 0).setSchema messageSchema false).2.put
    { ns := "namespace", uri := "uri/1", schemaType := "Message",
      properties := [("body", "message1")], creationTs := kTs, ttl := 0, score := 0 }).2.put
    { ns := "namespace", uri := "uri/2", schemaType := "Message",
      properties := [("body", "message2")], creationTs := kTs, ttl := 0, score := 0 }).2

/-- First page of `SearchShouldReturnMultiplePages`: page size 2 over the
five-document engine. -/
def c3Page1 : SearchResult × Engine :=
  Engine.search msgSearch defaultScoring { numPerPage := 2 } msgEngine5

/-- The next-page token returned with the first page. -/
def c3Tok : Nat := c3Page1.1.nextPageToken

/-- Second page: first `GetNextPage` on the token. -/
def c3Page2 : SearchResult × Engine := Engine.getNextPage c3Tok c3Page1.2

/-- Third page: second `GetNextPage` on the token. -/
def c3Page3 : SearchResult × Engine := Engine.getNextPage c3Tok c3Page2.2

/-- Fourth fetch: `GetNextPage` after the stream is exhausted. -/
def c3Page4 : SearchResult × Engine := Engine.getNextPage c3Tok c3Page3.2

/- ## General lemmas about the model -/

theorem mem_insertRanked (p : Nat → Nat → Bool) (x y : Nat) (l : List Nat) :
    y ∈ insertRanked p x l ↔ y = x ∨ y ∈ l := by
  induction l with
  | nil => simp [insertRanked]
  | cons a as ih =>
    by_cases h : p x a = true
    · simp [insertRanked, h]
    · simp only [insertRanked, h, if_false, Bool.false_eq_true, ite_false,
        List.mem_cons, ih]
      tauto

theorem mem_sortRanked (p : Nat → Nat → Bool) (y : Nat) (l : List Nat) :
    y ∈ sortRanked p l ↔ y ∈ l := by
  induction l with
  | nil => simp [sortRanked]
  | cons a as ih => simp [sortRanked, mem_insertRanked, ih]

theorem lookupPage_removePage (ps : List (Nat × PageState)) (tok : Nat) :
    lookupPage (removePage ps tok) tok = none := by
  induction ps with
  | nil => rfl
  | cons a as ih =>
    by_cases h : a.1 = tok
    · simpa [removePage, List.filter_cons, h] using ih
    · simp only [removePage, List.filter_cons, lookupPage] at ih ⊢
      simp [h, ih]

theorem revalidateEntry_doc (σ' : Schema) (en : DocEntry) :
    (if docValid σ' en.doc then en else { en with deleted := true }).doc = en.doc := by
  split <;> rfl

theorem keyAt_map_revalidate (σ' : Schema) (docs : List DocEntry)
    (ns uri : String) (i : Nat) :
    keyAt (docs.map (fun en =>
        if docValid σ' en.doc then en else { en with deleted := true })) ns uri i =
      keyAt docs ns uri i := by
  unfold keyAt
  rw [List.getElem?_map]
  cases h : docs[i]? with
  | none => rfl
  | some e => simp [revalidateEntry_doc]

theorem currentIdx_map_revalidate (σ' : Schema) (docs : List DocEntry)
    (ns uri : String) :
    currentIdx (docs.map (fun en =>
        if docValid σ' en.doc then en else { en with deleted := true })) ns uri =
      currentIdx docs ns uri := by
  unfold currentIdx
  rw [List.length_map,
    List.filter_congr (fun i _ => keyAt_map_revalidate σ' docs ns uri i)]

theorem reportUsage_state (ns uri : String) (ts : Nat) (ut : UsageType) (s : Store) :
    (Engine.reportUsage ns uri ts ut (.ready s)).2 =
      .ready (reportUsageS ns uri ts ut s) := by
  unfold Engine.reportUsage reportUsageS
  cases h : currentIdx s.docs ns uri with
  | none => simp [h]
  | some i => by_cases hl : isLive s i = true <;> simp [h, hl]

/- ## Claims -/

/-- C3: with five documents matching the query and `num_per_page = 2`,
`Search` returns the first two results and a non-zero next-page token;
the first `GetNextPage` on that token returns the next two results (and
keeps the token), the second returns the last result with no next-page
token, and any further `GetNextPage` returns an empty OK result. -/
theorem claimC3_pagination :
    c3Page1.1.status = .ok ∧
    c3Page1.1.results = [msgDoc "namespace" "uri5", msgDoc "namespace" "uri4"] ∧
    c3Tok ≠ 0 ∧
    c3Page2.1 = { status := .ok,
                  results := [msgDoc "namespace" "uri3", msgDoc "namespace" "uri2"],
                  nextPageToken := c3Tok } ∧
    c3Page3.1 = { status := .ok, results := [msgDoc "namespace" "uri1"],
                  nextPageToken := 0 } ∧
    c3Page4.1 = { status := .ok, results := [], nextPageToken := 0 } := by decide

/-- C7: with `max_token_length = 1`, the indexed token of `message body`
under `body` is truncated to `m` (and `b`), and the prefix queries `m`,
`me` and `massage` are truncated the same way, so each of them matches
the document — truncation is symmetric between indexing and querying. -/
theorem claimC7_token_truncation :
    (storeOf truncEngine).hits =
      [{ term := ['m'], docId := 0, prop := "body" },
       { term := ['b'], docId := 0, prop := "body" }] ∧
    (Engine.search { query := "m", termMatch := .prefixMatch } defaultScoring {}
        truncEngine).1 =
      { status := .ok, results := [msgDoc "namespace" "uri"], nextPageToken := 0 } ∧
    (Engine.search { query := "me", termMatch := .prefixMatch } defaultScoring {}
        truncEngine).1 =
      { status := .ok, results := [msgDoc "namespace" "uri"], nextPageToken := 0 } ∧
    (Engine.search { query := "massage", termMatch := .prefixMatch } defaultScoring {}
        truncEngine).1 =
      { status := .ok, results := [msgDoc "namespace" "uri"], nextPageToken := 0 } := by
  decide

/-- C9: the plain tokenizer splits `bar-baz` into `bar`, `baz`, and the
exact-match query `foo:bar-baz` matches both the document whose property
`foo` contains `bar-baz` and the one whose `foo` contains `bar` and
`baz` as separate words. -/
theorem claimC9_hyphens :
    plainTokens "bar-baz" = [['b','a','r'], ['b','a','z']] ∧
    (Engine.search { query := "foo:bar-baz", termMatch := .exactOnly }
        defaultScoring {} hyphenEngine).1 =
      { status := .ok, results := [hyphenDoc2, hyphenDoc1], nextPageToken := 0 } := by
  decide

/-- C10: calling `Initialize` on an already-initialised engine returns OK
and preserves all observable state, so a document inserted by `Put`
before the second `Initialize` is still returned unchanged by `Get`
afterwards; concretely so for the engine of
`InitializingAgainSavesNonPersistedData`. -/
theorem claimC10_reinitialize_idempotent :
    (∀ s : Store,
      Engine.initializeEngine (.ready s) = (.ok, .ready s) ∧
      ∀ ns uri, Engine.get ns uri (Engine.initializeEngine (.ready s)).2 =
        Engine.get ns uri (.ready s)) ∧
    (Engine.get "namespace" "uri" initAgainEngine =
      { status := .ok, doc := some (msgDoc "namespace" "uri") } ∧
    (Engine.initializeEngine initAgainEngine).1 = .ok ∧
    Engine.get "namespace" "uri" (Engine.initializeEngine initAgainEngine).2 =
      { status := .ok, doc := some (msgDoc "namespace" "uri") }) := by
  exact ⟨fun s => ⟨rfl, fun ns uri => rfl⟩, by decide, by decide, by decide⟩

/-- C2: when `Optimize` fails after a destructive step the engine returns
`INTERNAL` and enters the quarantined state, in which `SetSchema`, `Put`,
`Get` and `Search` all return `FAILED_PRECONDITION`; a successful `Reset`
returns the engine to the empty working state, in which those operations
succeed again (replaying `OptimizationFailureUninitializesIcing`). -/
theorem claimC2_quarantine (s : Store) :
    Engine.optimizeFailAfterDestructiveStep (.ready s) = (.internal, .quarantined s) ∧
    (∀ σ f, (Engine.setSchema σ f (.quarantined s)).1.status = .failedPrecondition ∧
            (Engine.setSchema σ f (.quarantined s)).2 = .quarantined s) ∧
    (∀ d, (Engine.put d (.quarantined s)).1 = .failedPrecondition) ∧
    (∀ ns uri, (Engine.get ns uri (.quarantined s)).status = .failedPrecondition) ∧
    (∀ sp sc rs, (Engine.search sp sc rs (.quarantined s)).1.status = .failedPrecondition) ∧
    Engine.reset (.quarantined s) = (.ok, .ready (emptyStore s.maxTokenLen s.now)) ∧
    (∀ m n : Nat,
      (Engine.setSchema simpleSchema false (.ready (emptyStore m n))).1.status = .ok ∧
      (Engine.put simpleDoc
          (Engine.setSchema simpleSchema false (.ready (emptyStore m n))).2).1 = .ok ∧
      (Engine.get "namespace0" "uri0"
          (Engine.put simpleDoc
            (Engine.setSchema simpleSchema false (.ready (emptyStore m n))).2).2).status
        = .ok ∧
      (Engine.search fooSearch ctScoring {}
          (Engine.put simpleDoc
            (Engine.setSchema simpleSchema false (.ready (emptyStore m n))).2).2).1.status
        = .ok) :=
  ⟨rfl, fun _ _ => ⟨rfl, rfl⟩, fun _ => rfl, fun _ _ => rfl, fun _ _ _ => rfl, rfl,
   fun _ _ => ⟨rfl, rfl, rfl, rfl⟩⟩

/-- C4: `GetNextPage` on any page token that is not an active cached
stream — never issued or already purged, whether explicitly by
`InvalidateNextPageToken` or wholesale by `Optimize` — returns an empty
result with OK status and no error. -/
theorem claimC4_unknown_tokens (s : Store) (tok : Nat) :
    (lookupPage s.pages tok = none →
      Engine.getNextPage tok (.ready s) =
        ({ status := .ok, results := [], nextPageToken := 0 }, .ready s)) ∧
    (Engine.getNextPage tok (Engine.invalidateNextPageToken tok (.ready s))).1 =
      { status := .ok, results := [], nextPageToken := 0 } ∧
    (Engine.getNextPage tok (Engine.optimize (.ready s)).2).1 =
      { status := .ok, results := [], nextPageToken := 0 } := by
  refine ⟨fun h => ?_, ?_, ?_⟩
  · simp [Engine.getNextPage, h]
  · simp [Engine.getNextPage, Engine.invalidateNextPageToken, lookupPage_removePage]
  · simp [Engine.getNextPage, Engine.optimize, lookupPage]

/-- Witness for C4: a token that was never issued by `msgEngine5`. -/
theorem claimC4Witness :
    lookupPage (storeOf msgEngine5).pages 99 = none ∧
    Engine.getNextPage 99 (.ready (storeOf msgEngine5)) =
      ({ status := .ok, results := [], nextPageToken := 0 },
       .ready (storeOf msgEngine5)) :=
  ⟨by decide, (claimC4_unknown_tokens (storeOf msgEngine5) 99).1 (by decide)⟩

/-- C8: for a ready engine, a `Search` whose result spec has
`num_per_page = 0` returns OK with an empty result list, and one with a
negative `num_per_page` returns `INVALID_ARGUMENT`. -/
theorem claimC8_result_limits (s : Store) (sp : SearchSpec) (sc : ScoringSpec) :
    ((Engine.search sp sc { numPerPage := 0 } (.ready s)).1.status = .ok ∧
     (Engine.search sp sc { numPerPage := 0 } (.ready s)).1.results = []) ∧
    (∀ n : Int, n < 0 →
      (Engine.search sp sc { numPerPage := n } (.ready s)).1 =
        { status := .invalidArgument, results := [], nextPageToken := 0 }) := by
  refine ⟨⟨?_, ?_⟩, fun n hn => ?_⟩
  · simp only [Engine.search]
    rw [if_neg (by decide)]
    split <;> rfl
  · simp only [Engine.search]
    rw [if_neg (by decide)]
    split <;> rfl
  · simp only [Engine.search]
    rw [if_pos hn]

/-- Witness for C8: the negative-limit branch at a concrete engine. -/
theorem claimC8Witness :
    ((-5 : Int) < 0) ∧
    (Engine.search msgSearch defaultScoring { numPerPage := -5 }
        (.ready (storeOf msgEngine5))).1 =
      { status := .invalidArgument, results := [], nextPageToken := 0 } :=
  ⟨by decide,
   (claimC8_result_limits (storeOf msgEngine5) msgSearch defaultScoring).2 (-5) (by decide)⟩

/-- C5: every document a ready engine's `Search` returns is unexpired at
the engine clock (`now < creation_ts + ttl` whenever `ttl ≠ 0`), even
though the `Put` succeeded and the document was indexed; concretely, the
document with creation 100 and ttl 500 is matched at clock 400 and
yields an empty result at clock 700. -/
theorem claimC5_ttl (s : Store) (sp : SearchSpec) (sc : ScoringSpec)
    (rs : ResultSpec) (d : Document)
    (hd : d ∈ (Engine.search sp sc rs (.ready s)).1.results) (httl : d.ttl ≠ 0) :
    s.now < d.creationTs + d.ttl ∧
    (Engine.put ttlDoc ((initialEngine 30 400).setSchema messageSchema false).2).1
      = .ok ∧
    (Engine.search { query := "message", termMatch := .exactOnly } defaultScoring {}
        (ttlEngine 400)).1 =
      { status := .ok, results := [ttlDoc], nextPageToken := 0 } ∧
    (Engine.search { query := "message", termMatch := .exactOnly } defaultScoring {}
        (ttlEngine 700)).1 =
      { status := .ok, results := [], nextPageToken := 0 } := by
  refine ⟨?_, by decide, by decide, by decide⟩
  simp only [Engine.search] at hd
  by_cases hneg : rs.numPerPage < 0
  · rw [if_pos hneg] at hd
    simp at hd
  · rw [if_neg hneg] at hd
    have hmem : d ∈ searchDocs s sp sc := by
      split at hd <;> exact List.mem_of_mem_take hd
    simp only [searchDocs] at hmem
    obtain ⟨i, hi, hmap⟩ := List.mem_filterMap.mp hmem
    obtain ⟨e, he, hed⟩ := Option.map_eq_some'.mp hmap
    have hc : i ∈ candidateIds s sp := by
      cases horder : sc.order <;>
        simpa [rankedIds, horder, mem_sortRanked] using hi
    have hcond := (List.mem_filter.mp hc).2
    simp only [Bool.and_eq_true] at hcond
    have hlive : isLive s i = true := hcond.1.2
    unfold isLive at hlive
    rw [he] at hlive
    simp only [Bool.and_eq_true, Bool.not_eq_true'] at hlive
    have hexp : expiredAt s.now e.doc = false := hlive.1.2
    unfold expiredAt at hexp
    rw [hed] at hexp
    simp only [decide_eq_false_iff_not, not_and, not_le, ne_eq] at hexp
    exact hexp httl

/-- Witness for C5: the ttl document returned by the clock-400 search is
indeed unexpired at that clock. -/
theorem claimC5Witness :
    (ttlDoc ∈ (Engine.search { query := "message", termMatch := .exactOnly }
        defaultScoring {} (.ready (storeOf (ttlEngine 400)))).1.results ∧
     ttlDoc.ttl ≠ 0) ∧
    (storeOf (ttlEngine 400)).now < ttlDoc.creationTs + ttlDoc.ttl :=
  ⟨⟨by decide, by decide⟩,
   (claimC5_ttl (storeOf (ttlEngine 400))
      { query := "message", termMatch := .exactOnly } defaultScoring {} ttlDoc
      (by decide) (by decide)).1⟩

theorem usageLastUsedOf_bump (ut : UsageType) (ts : Nat) (u : UsageScores) :
    usageLastUsedOf ut (bumpUsage ut ts u) = max (usageLastUsedOf ut u) ts := by
  cases ut <;> rfl

theorem isLive_set_usage (s : Store) (u : List (Nat × UsageScores)) (i : Nat) :
    isLive { s with usage := u } i = isLive s i := rfl

theorem lookupUsage_cons_self (j : Nat) (v : UsageScores)
    (u : List (Nat × UsageScores)) : lookupUsage ((j, v) :: u) j = some v := by
  simp [lookupUsage]

theorem lookupUsage_cons_ne (j : Nat) (v : UsageScores)
    (u : List (Nat × UsageScores)) (i : Nat) (h : j ≠ i) :
    lookupUsage ((j, v) :: u) i = lookupUsage u i := by
  simp [lookupUsage, h]

/-- C6: per-document usage last-used timestamps are monotone under
`ReportUsage` — reporting the same usage type with an older timestamp
`t2 ≤ t1` after `t1` leaves the score used by the corresponding
`USAGE_TYPE*_LAST_USED_TIMESTAMP` ranking strategy unchanged, and for a
document with no prior usage record that score is exactly `t1`. -/
theorem claimC6_usage_monotone (s : Store) (ns uri : String) (ut : UsageType)
    (t1 t2 : Nat) (hle : t2 ≤ t1) :
    (∀ ts, (Engine.reportUsage ns uri ts ut (.ready s)).2 =
        .ready (reportUsageS ns uri ts ut s)) ∧
    (∀ i, scoreOf (reportUsageS ns uri t2 ut (reportUsageS ns uri t1 ut s))
        (.usageLastUsedTimestamp ut) i =
      scoreOf (reportUsageS ns uri t1 ut s) (.usageLastUsedTimestamp ut) i) ∧
    (∀ i, currentIdx s.docs ns uri = some i → isLive s i = true →
      lookupUsage s.usage i = none →
      scoreOf (reportUsageS ns uri t2 ut (reportUsageS ns uri t1 ut s))
        (.usageLastUsedTimestamp ut) i = t1) := by
  refine ⟨fun ts => reportUsage_state ns uri ts ut s, ?_, ?_⟩
  · intro i
    cases hci : currentIdx s.docs ns uri with
    | none => simp [reportUsageS, hci]
    | some j =>
      by_cases hl : isLive s j = true
      · simp only [reportUsageS, hci, isLive_set_usage, hl, if_true,
          lookupUsage_cons_self, Option.getD_some, scoreOf]
        cases hde : s.docs[i]? with
        | none => simp [hde]
        | some e =>
          simp only [hde]
          by_cases hij : j = i
          · subst hij
            simp only [lookupUsage_cons_self, Option.map_some', Option.getD_some,
              usageLastUsedOf_bump]
            omega
          · simp only [lookupUsage_cons_ne _ _ _ _ hij]
      · simp [reportUsageS, hci, isLive_set_usage, hl]
  · intro i hci hl hu
    simp only [reportUsageS, hci, isLive_set_usage, hl, if_true, hu,
      Option.getD_none, lookupUsage_cons_self, Option.getD_some, scoreOf]
    cases hde : s.docs[i]? with
    | none => simp [isLive, hde] at hl
    | some e =>
      simp only [hde, lookupUsage_cons_self, Option.map_some', Option.getD_some,
        usageLastUsedOf_bump]
      have h0 : usageLastUsedOf ut ({} : UsageScores) = 0 := by cases ut <;> rfl
      rw [h0]
      omega

/-- Witness for C6: the usage report sequence of
`OlderUsageTimestampShouldNotOverrideNewerOnes` (timestamps 5000 then
1000 on the same document), evaluated at the concrete engine. -/
theorem claimC6Witness :
    (1000 : Nat) ≤ 5000 ∧
    scoreOf (reportUsageS "namespace" "uri/1" 1000 .type1
        (reportUsageS "namespace" "uri/1" 5000 .type1 (storeOf usageEngine)))
      (.usageLastUsedTimestamp .type1) 0 =
      scoreOf (reportUsageS "namespace" "uri/1" 5000 .type1 (storeOf usageEngine))
        (.usageLastUsedTimestamp .type1) 0 :=
  ⟨by decide,
   (claimC6_usage_monotone (storeOf usageEngine) "namespace" "uri/1" .type1
      5000 1000 (by decide)).2.1 0⟩

/-- C1: a backward-incompatible `SetSchema` without
`ignore_errors_and_delete_documents` fails with `FAILED_PRECONDITION`,
reporting the offending type names, and mutates no state, so every
document remains retrievable; with the flag it returns OK with the same
type lists, and afterwards `Get` finds a previously retrievable document
unchanged iff it still validates against the new schema (documents of a
deleted type or lacking a newly-required property become `NOT_FOUND`). -/
theorem claimC1_set_schema_incompatible (s : Store) (σ' : Schema)
    (hval : validateSchema σ' = true)
    (hinc : schemaDelta s σ' ≠ ([], [])) :
    (Engine.setSchema σ' false (.ready s) =
      ({ status := .failedPrecondition, deletedTypes := (schemaDelta s σ').1,
         incompatibleTypes := (schemaDelta s σ').2 }, .ready s)) ∧
    (∀ ns uri, Engine.get ns uri (Engine.setSchema σ' false (.ready s)).2 =
      Engine.get ns uri (.ready s)) ∧
    ((Engine.setSchema σ' true (.ready s)).1 =
      { status := .ok, deletedTypes := (schemaDelta s σ').1,
        incompatibleTypes := (schemaDelta s σ').2 }) ∧
    (∀ ns uri d, Engine.get ns uri (.ready s) = { status := .ok, doc := some d } →
      Engine.get ns uri (Engine.setSchema σ' true (.ready s)).2 =
        (if docValid σ' d then { status := .ok, doc := some d }
         else { status := .notFound, doc := none })) := by
  have hfail : Engine.setSchema σ' false (.ready s) =
      ({ status := .failedPrecondition, deletedTypes := (schemaDelta s σ').1,
         incompatibleTypes := (schemaDelta s σ').2 }, .ready s) := by
    simp only [Engine.setSchema, hval, if_true]
    rw [if_neg]
    simp [hinc]
  have hforce : Engine.setSchema σ' true (.ready s) =
      ({ status := .ok, deletedTypes := (schemaDelta s σ').1,
         incompatibleTypes := (schemaDelta s σ').2 },
       .ready { s with
          schema := some σ',
          docs := s.docs.map (fun en =>
            if docValid σ' en.doc then en else { en with deleted := true }) }) := by
    simp only [Engine.setSchema, hval, if_true, or_true]
  refine ⟨hfail, fun ns uri => by rw [hfail], by rw [hforce], ?_⟩
  intro ns uri d hget
  rw [hforce]
  simp only [Engine.get] at hget ⊢
  cases hci : currentIdx s.docs ns uri with
  | none => simp only [hci] at hget; simp at hget
  | some i =>
    simp only [hci] at hget
    simp only [currentIdx_map_revalidate, hci, List.getElem?_map]
    cases hde : s.docs[i]? with
    | none => simp only [hde] at hget; simp at hget
    | some e =>
      simp only [hde] at hget
      simp only [hde, Option.map_some']
      cases hdel : e.deleted with
      | true => simp [hdel] at hget
      | false =>
        simp only [hdel] at hget
        cases hexp : expiredAt s.now e.doc with
        | true => simp [hexp] at hget
        | false =>
          simp only [hexp, Bool.false_eq_true, if_false, GetResult.mk.injEq,
            Option.some.injEq, true_and] at hget
          subst hget
          by_cases hv : docValid σ' e.doc = true
          · simp [hv, hdel, hexp]
          · simp only [Bool.not_eq_true] at hv
            simp [hv, hdel]

/-- Witness for C1: the scenario of
`SetSchemaRevalidatesDocumentsAndReturnsOk` — tightening `subject` from
optional to required with a document lacking it. -/
theorem claimC1Witness :
    validateSchema emailRequiredSchema = true ∧
    schemaDelta (storeOf revalidationEngine) emailRequiredSchema ≠ ([], []) ∧
    (Engine.setSchema emailRequiredSchema false (.ready (storeOf revalidationEngine))).1 =
      { status := .failedPrecondition, deletedTypes := [],
        incompatibleTypes := ["email"] } ∧
    Engine.get "namespace" "without_subject"
        (Engine.setSchema emailRequiredSchema true (.ready (storeOf revalidationEngine))).2 =
      { status := .notFound, doc := none } ∧
    Engine.get "namespace" "with_subject"
        (Engine.setSchema emailRequiredSchema true (.ready (storeOf revalidationEngine))).2 =
      { status := .ok, doc := some docWithSubject } := by
  have h := claimC1_set_schema_incompatible (storeOf revalidationEngine)
    emailRequiredSchema (by decide) (by decide)
  refine ⟨by decide, by decide, ?_, ?_, ?_⟩
  · rw [h.1]
    decide
  · rw [h.2.2.2 "namespace" "without_subject" docWithoutSubject (by decide)]
    decide
  · rw [h.2.2.2 "namespace" "with_subject" docWithSubject (by decide)]
    decide

end Icing
